import Mathlib

/-!
Shallow embedding of the gcs-cache action's cache-resolution and fallback
engine (`src/utils/gcsCache.ts` and `src/utils/actionUtils.ts`).

Modelling conventions:
  * Asynchronous SDK / filesystem calls are modelled by oracle fields in an
    environment structure: a call that can throw is an `Except Unit α`
    (`.error ()` = the call raised), a call that cannot observably fail is a
    plain value.  A tier function consumes the environment and returns its
    result together with Booleans recording which effectful milestones were
    reached (bucket probed, archive step entered, `unlinkFile` called).
  * JavaScript truthiness is modelled explicitly: `if (result)` on a number
    is `result != 0` (0, -0 and NaN are the only falsy numbers, and the code
    never produces NaN here); on a `string | undefined` it is "defined and
    non-empty"; on a string input, `!bucket` is `bucket == ""`.
  * `utils.getCacheFileName(compressionMethod)` is an external helper; its
    result is carried as the `cacheFileName` field / argument.
  * Log lines (`core.info`, `core.warning`, `core.debug`) and the purely
    diagnostic listing that `findFileOnGCS` performs after all keys missed
    are ignored: they do not affect any value or control flow.
-/

namespace GcsCache

/-- JS truthiness of a JavaScript number (`if (result)` in `saveCache`):
falsy exactly on 0 (and NaN, never produced here). -/
def truthyNum (n : Int) : Bool := n != 0

/-- JS truthiness of a `string | undefined` value (`if (result)` in
`restoreCache`): truthy iff defined and non-empty. -/
def truthyStr : Option String → Bool
  | none => false
  | some s => s != ""

/-- `const DEFAULT_PATH_PREFIX = "github-cache"` (gcsCache.ts line 12). -/
def DEFAULT_PATH_PFX : String := "github-cache"

/-- `core.getInput(Inputs.GCSPathPrefix) || DEFAULT_PATH_PREFIX`: the empty
string (unset input) is falsy, so it is replaced by the default. -/
def effectivePfx (pfxInput : String) : String :=
  if pfxInput == "" then DEFAULT_PATH_PFX else pfxInput

/-- `getGCSPath(pathPrefix, key, compressionMethod)` (gcsCache.ts 246-248):
`` `${pathPrefix}/${key}.${utils.getCacheFileName(compressionMethod)}` ``.
`fileName` stands for `utils.getCacheFileName(compressionMethod)`. -/
def getGCSPath (pfx key fileName : String) : String :=
  pfx ++ "/" ++ key ++ "." ++ fileName

/-- `isGCSAvailable()` (actionUtils.ts 70-96): reads the bucket input and
returns false iff it is falsy (the empty string).  The surrounding
`try/catch` has no throwing operation in its body, so it is elided. -/
def isGCSAvailable (bucket : String) : Bool := !(bucket == "")

/-- `isExactKeyMatch(key, cacheKey)` (actionUtils.ts 19-26):
`cacheKey` truthy and `cacheKey.localeCompare(key, undefined,
{sensitivity: "accent"}) === 0`.  The accent-sensitive, case-insensitive
locale comparison is modelled as equality of character-wise lowercasings. -/
def isExactKeyMatch (key : String) (cacheKey : Option String) : Bool :=
  match cacheKey with
  | none => false
  | some ck => ck.data.map Char.toLower == key.data.map Char.toLower

/-- `checkFileExists(storage, bucket, path)` (gcsCache.ts 405-413): probes
the object, and on error logs a warning and rethrows; so as a value it is
the probe itself.  `objectExists` is the SDK's `file(path).exists()`. -/
def checkFileExists (objectExists : String → Except Unit Bool) (p : String) :
    Except Unit Bool :=
  objectExists p

/-- `findFileOnGCS(storage, bucket, pathPrefix, keys, compressionMethod)`
(gcsCache.ts 362-403): for each key in order compute its object path and
probe it via `checkFileExists`; return the first existing path.  A probe
that throws is caught, logged, and the loop continues with the next key.
After the loop the code only lists the bucket contents for diagnostics
(no effect on the result) and returns `undefined`. -/
def findFileOnGCS (objectExists : String → Except Unit Bool) (pfx : String)
    (fileName : String) : List String → Option String
  | [] => none
  | key :: rest =>
    let gcsPath := getGCSPath pfx key fileName
    match checkFileExists objectExists gcsPath with
    | .ok true => some gcsPath
    | .ok false => findFileOnGCS objectExists pfx fileName rest
    | .error _ => findFileOnGCS objectExists pfx fileName rest

/-- Environment of oracle answers for one `saveToGCS` call. -/
structure SaveEnv where
  /-- `getGCSClient()` returned a non-null client. -/
  clientOk : Bool
  /-- `core.getInput(Inputs.GCSPathPrefix)` ("" when unset). -/
  pfxInput : String
  /-- `utils.getCacheFileName(compressionMethod)`. -/
  cacheFileName : String
  /-- `storage.bucket(bucket).exists()`; may throw. -/
  bucketExists : Except Unit Bool
  /-- `utils.resolvePaths(paths)`. -/
  resolvedPaths : List String
  /-- `createTar(...)`; may throw. -/
  createTarOk : Except Unit Unit
  /-- `listTar(...)`; may throw. -/
  listTarOk : Except Unit Unit
  /-- `fs.statSync(archivePath).size`; may throw. -/
  statSize : Except Unit Nat
  /-- `storage.bucket(bucket).upload(...)`; may throw. -/
  uploadOk : Except Unit Unit
  /-- Post-upload `storage.bucket(bucket).file(gcsPath).exists()`, as a
  function of the probed object path; may throw. -/
  postUploadExists : String → Except Unit Bool

/-- Result of one `saveToGCS` call: the returned number (`.error ()` when
the call ended by raising an exception), plus which milestones ran. -/
structure SaveOutcome where
  result : Except Unit Int
  /-- The bucket-existence network call was issued. -/
  bucketChecked : Bool
  /-- The `try` block holding `createTar`/upload was entered (so the local
  temporary archive file may exist). -/
  archiveStepsRun : Bool
  /-- The `finally` block reached `utils.unlinkFile(archivePath)`. -/
  unlinkCalled : Bool

/-- `saveToGCS(paths, key)` (gcsCache.ts 251-360).  Control flow:
1. null client ⇒ return `cacheId` = -1;
2. bucket existence check: missing bucket or thrown error ⇒ return -1;
3. `resolvePaths`; empty ⇒ `throw new Error("Path Validation Error: ...")`
   (outside any `try`, so it propagates out of `saveToGCS`);
4. `try { createTar; listTar; stat (inner try: throw ⇒ return -1);
   size 0 ⇒ return -1; upload; post-upload exists probe: true ⇒ return 1,
   false ⇒ return -1 } catch { return -1 } finally { unlink }`. -/
def saveToGCS (env : SaveEnv) (key : String) : SaveOutcome :=
  if !env.clientOk then ⟨.ok (-1), false, false, false⟩
  else
    match env.bucketExists with
    | .error _ => ⟨.ok (-1), true, false, false⟩
    | .ok false => ⟨.ok (-1), true, false, false⟩
    | .ok true =>
      if env.resolvedPaths.length == 0 then ⟨.error (), true, false, false⟩
      else
        let gcsPath := getGCSPath (effectivePfx env.pfxInput) key env.cacheFileName
        let body : Except Unit Int :=
          match env.createTarOk with
          | .error _ => .ok (-1)
          | .ok _ =>
            match env.listTarOk with
            | .error _ => .ok (-1)
            | .ok _ =>
              match env.statSize with
              | .error _ => .ok (-1)
              | .ok size =>
                if size == 0 then .ok (-1)
                else
                  match env.uploadOk with
                  | .error _ => .ok (-1)
                  | .ok _ =>
                    match env.postUploadExists gcsPath with
                    | .error _ => .ok (-1)
                    | .ok true => .ok 1
                    | .ok false => .ok (-1)
        ⟨body, true, true, true⟩

/-- Environment of oracle answers for one `restoreFromGCS` call. -/
structure RestoreEnv where
  /-- `getGCSClient()` returned a non-null client. -/
  clientOk : Bool
  /-- `core.getInput(Inputs.GCSPathPrefix)` ("" when unset). -/
  pfxInput : String
  /-- `utils.getCacheFileName(compressionMethod)`. -/
  cacheFileName : String
  /-- `storage.bucket(bucket).exists()`; may throw. -/
  bucketExists : Except Unit Bool
  /-- `file(path).exists()` per object path, used by the key resolver. -/
  objectExists : String → Except Unit Bool
  /-- `options?.lookupOnly`. -/
  lookupOnly : Bool
  /-- `file.download({destination})`; may throw. -/
  downloadOk : Except Unit Unit
  /-- `fs.statSync(archivePath).size` after download; may throw. -/
  statSize : Except Unit Nat
  /-- `listTar(...)`; may throw. -/
  listTarOk : Except Unit Unit
  /-- `utils.getArchiveFileSizeInBytes(archivePath)` (log only); may throw. -/
  sizeCalc : Except Unit Nat
  /-- `extractTar(...)`; may throw. -/
  extractOk : Except Unit Unit
  /-- `fs.existsSync(cachePath)` per requested path in the post-extraction
  verification loop; a throwing check is caught and the loop continues. -/
  pathExistsAfter : String → Except Unit Bool

/-- Result of one `restoreFromGCS` call plus which milestones ran. -/
structure RestoreOutcome where
  result : Option String
  /-- Execution entered the `try` block that downloads the archive (so the
  local temporary archive file may exist). -/
  downloadAttempted : Bool
  /-- The `finally` block reached `utils.unlinkFile(archivePath)`. -/
  unlinkCalled : Bool

/-- Post-extraction verification loop (gcsCache.ts 210-222): scan the
requested paths; the first `existsSync` returning true sets
`extractionSucceeded` and breaks; a false result or a caught error moves on
to the next path. -/
def extractionSucceeded (pathExistsAfter : String → Except Unit Bool) :
    List String → Bool
  | [] => false
  | p :: rest =>
    match pathExistsAfter p with
    | .ok true => true
    | .ok false => extractionSucceeded pathExistsAfter rest
    | .error _ => extractionSucceeded pathExistsAfter rest

/-- `restoreFromGCS(paths, primaryKey, restoreKeys, options)`
(gcsCache.ts 106-244).  Control flow:
1. null client ⇒ `undefined`;
2. bucket existence check: missing or thrown ⇒ `undefined`;
3. destination-directory creation loop: logs only, failures swallowed;
4. resolve `[primaryKey, ...restoreKeys]` via `findFileOnGCS`; no match ⇒
   `undefined`;
5. `lookupOnly` ⇒ return the matched `gcsPath` without downloading;
6. `try { download; stat (inner try: throw ⇒ return undefined); size 0 ⇒
   undefined; listTar; size log; extract; post-extraction path scan:
   found ⇒ return gcsPath, none found ⇒ undefined } catch { undefined }
   finally { unlink }`. -/
def restoreFromGCS (env : RestoreEnv) (primaryKey : String)
    (restoreKeys : List String) (paths : List String) : RestoreOutcome :=
  if !env.clientOk then ⟨none, false, false⟩
  else
    match env.bucketExists with
    | .error _ => ⟨none, false, false⟩
    | .ok false => ⟨none, false, false⟩
    | .ok true =>
      let pfx := effectivePfx env.pfxInput
      let keys := primaryKey :: restoreKeys
      match findFileOnGCS env.objectExists pfx env.cacheFileName keys with
      | none => ⟨none, false, false⟩
      | some gcsPath =>
        if env.lookupOnly then ⟨some gcsPath, false, false⟩
        else
          let body : Option String :=
            match env.downloadOk with
            | .error _ => none
            | .ok _ =>
              match env.statSize with
              | .error _ => none
              | .ok size =>
                if size == 0 then none
                else
                  match env.listTarOk with
                  | .error _ => none
                  | .ok _ =>
                    match env.sizeCalc with
                    | .error _ => none
                    | .ok _ =>
                      match env.extractOk with
                      | .error _ => none
                      | .ok _ =>
                        if extractionSucceeded env.pathExistsAfter paths
                        then some gcsPath else none
          ⟨body, true, true⟩

/-- `restoreCache(paths, primaryKey, restoreKeys, options, ...)`
(gcsCache.ts 32-69), the fallback coordinator for restore.  The awaited
remote attempt — `try { restoreFromGCS(...) } catch` — is passed in as
`remoteAttempt` (`.error ()` models a thrown exception).  A truthy remote
result is returned as-is; otherwise (falsy result, or caught exception) the
call falls through to `cache.restoreCache`, whose result is
`localRestore`. -/
def restoreCache (gcsAvailable : Bool)
    (remoteAttempt : Except Unit (Option String))
    (localRestore : Option String) : Option String :=
  if gcsAvailable then
    match remoteAttempt with
    | .ok result => if truthyStr result then result else localRestore
    | .error _ => localRestore
  else localRestore

/-- `saveCache(paths, key, options, ...)` (gcsCache.ts 71-99), the fallback
coordinator for save.  The awaited remote attempt —
`try { saveToGCS(...) } catch` — is passed in as `remoteAttempt`.  A truthy
(non-zero) remote number is returned as-is; otherwise the call falls
through to `cache.saveCache`, whose result is `localSave`. -/
def saveCache (gcsAvailable : Bool) (remoteAttempt : Except Unit Int)
    (localSave : Int) : Int :=
  if gcsAvailable then
    match remoteAttempt with
    | .ok result => if truthyNum result then result else localSave
    | .error _ => localSave
  else localSave

/-! ### Helper lemmas about the object-path scheme -/

theorem string_eq_of_data_eq {s t : String} (h : s.data = t.data) : s = t := by
  cases s; cases t; exact congrArg String.mk h

theorem getGCSPath_length (pfx k f : String) :
    (getGCSPath pfx k f).length = pfx.length + 1 + k.length + 1 + f.length := by
  have h1 : ("/" : String).length = 1 := rfl
  have h2 : ("." : String).length = 1 := rfl
  simp only [getGCSPath, String.length_append]
  omega

theorem getGCSPath_key_inj {pfx k k' f : String}
    (h : getGCSPath pfx k f = getGCSPath pfx k' f) : k = k' := by
  have hd := congrArg String.data h
  simp only [getGCSPath, String.data_append, List.append_assoc] at hd
  have h1 := List.append_cancel_left hd
  have h2 := List.append_cancel_left h1
  exact string_eq_of_data_eq (List.append_cancel_right h2)

theorem getGCSPath_ne_empty (pfx k f : String) : getGCSPath pfx k f ≠ "" := by
  intro h
  have := congrArg String.length h
  rw [getGCSPath_length] at this
  have h0 : ("" : String).length = 0 := rfl
  omega

theorem getGCSPath_ne_key (pfx k f : String) : getGCSPath pfx k f ≠ k := by
  intro h
  have := congrArg String.length h
  rw [getGCSPath_length] at this
  omega

theorem isExactKeyMatch_getGCSPath_false (pfx k f : String) :
    isExactKeyMatch k (some (getGCSPath pfx k f)) = false := by
  have hlen : (getGCSPath pfx k f).data.length ≠ k.data.length := by
    have := getGCSPath_length pfx k f
    simp only [String.length] at this
    omega
  simp only [isExactKeyMatch]
  rw [beq_eq_false_iff_ne]
  intro h
  exact hlen (by simpa using congrArg List.length h)

/-- Every path the resolver returns is the object path of one of its keys. -/
theorem findFileOnGCS_result_mem (objectExists : String → Except Unit Bool)
    (pfx fileName : String) (keys : List String) (p : String)
    (h : findFileOnGCS objectExists pfx fileName keys = some p) :
    ∃ k, k ∈ keys ∧ p = getGCSPath pfx k fileName := by
  induction keys with
  | nil => simp [findFileOnGCS] at h
  | cons key rest ih =>
    simp only [findFileOnGCS, checkFileExists] at h
    rcases he : objectExists (getGCSPath pfx key fileName) with e | b
    · rw [he] at h
      obtain ⟨k, hk, hp⟩ := ih h
      exact ⟨k, List.mem_cons_of_mem _ hk, hp⟩
    · rw [he] at h
      cases b with
      | true =>
        simp only at h
        exact ⟨key, List.mem_cons_self _ _, (Option.some_injective _ h).symm⟩
      | false =>
        simp only at h
        obtain ⟨k, hk, hp⟩ := ih h
        exact ⟨k, List.mem_cons_of_mem _ hk, hp⟩

/-- Any defined result of `restoreFromGCS` is exactly the object path the
key resolver matched, hence the object path of one of the candidate keys. -/
theorem restoreFromGCS_result_mem (env : RestoreEnv) (pk : String)
    (rks paths : List String) (s : String)
    (h : (restoreFromGCS env pk rks paths).result = some s) :
    ∃ k, k ∈ pk :: rks
      ∧ s = getGCSPath (effectivePfx env.pfxInput) k env.cacheFileName := by
  obtain ⟨co, pi, cf, be, oe, lo, dl, ss, lt, sc, ex, pe⟩ := env
  simp only [restoreFromGCS] at h ⊢
  cases co with
  | false => simp at h
  | true =>
    simp only [Bool.not_true, Bool.false_eq_true, if_false] at h
    cases be with
    | error e => simp at h
    | ok b =>
      cases b with
      | false => simp at h
      | true =>
        simp only at h
        rcases hf : findFileOnGCS oe (effectivePfx pi) cf (pk :: rks) with _ | gp
        · rw [hf] at h; simp at h
        · rw [hf] at h
          have hmem := findFileOnGCS_result_mem oe (effectivePfx pi) cf
            (pk :: rks) gp hf
          cases lo with
          | true =>
            simp only [if_true] at h
            obtain rfl : gp = s := by simpa using h
            exact hmem
          | false =>
            simp only [Bool.false_eq_true, if_false] at h
            cases dl with
            | error e => simp at h
            | ok u =>
              simp only at h
              cases ss with
              | error e => simp at h
              | ok size =>
                simp only at h
                cases size with
                | zero => simp at h
                | succ m =>
                  simp only [Nat.succ_ne_zero, beq_iff_eq, if_false] at h
                  cases lt with
                  | error e => simp at h
                  | ok u2 =>
                    simp only at h
                    cases sc with
                    | error e => simp at h
                    | ok n2 =>
                      simp only at h
                      cases ex with
                      | error e => simp at h
                      | ok u3 =>
                        simp only at h
                        by_cases hx : extractionSucceeded pe paths
                        · rw [if_pos hx] at h
                          obtain rfl : gp = s := by simpa using h
                          exact hmem
                        · rw [if_neg hx] at h; simp at h

/-! ### Claims about the key resolver -/

/-- C3: the key resolver checks each candidate in order at its derived
object path `pfx/key.fileName` and returns the first path that exists.
Against a store containing only the object for `k2`, the resolver returns
the object path for `k2` — never `k1` or any key after `k2` — and against
a store with no matching object it returns no match. -/
theorem findFileOnGCS_first_match_in_order (pfx fileName k1 k2 : String)
    (rest : List String) (h : k1 ≠ k2) :
    (findFileOnGCS (fun p => .ok (p == getGCSPath pfx k2 fileName)) pfx
        fileName (k1 :: k2 :: rest) = some (getGCSPath pfx k2 fileName))
    ∧ (∀ keys : List String,
        findFileOnGCS (fun _ => .ok false) pfx fileName keys = none) := by
  constructor
  · have hne : (getGCSPath pfx k1 fileName == getGCSPath pfx k2 fileName)
        = false := by
      rw [beq_eq_false_iff_ne]
      intro he
      exact h (getGCSPath_key_inj he)
    simp [findFileOnGCS, checkFileExists, hne]
  · intro keys
    induction keys with
    | nil => rfl
    | cons k ks ih => simp [findFileOnGCS, checkFileExists, ih]

/-- Witness for C3 at a concrete store and key list. -/
theorem findFileOnGCS_first_match_in_order_witness :
    (findFileOnGCS
        (fun p => .ok (p == getGCSPath "github-cache" "b" "cache.tzst"))
        "github-cache" "cache.tzst" ["a", "b"]
      = some (getGCSPath "github-cache" "b" "cache.tzst"))
    ∧ findFileOnGCS (fun _ => .ok false) "github-cache" "cache.tzst"
        ["a", "b"] = none :=
  ⟨(findFileOnGCS_first_match_in_order "github-cache" "cache.tzst" "a" "b" []
      (by decide)).1,
   (findFileOnGCS_first_match_in_order "github-cache" "cache.tzst" "a" "b" []
      (by decide)).2 ["a", "b"]⟩

/-- C7: a candidate whose existence probe raises is treated as not found
and the resolver continues in order; the result is the first candidate
after the erroring ones whose probe succeeds with `true`. -/
theorem findFileOnGCS_continues_after_errors
    (oe : String → Except Unit Bool) (pfx fileName k : String)
    (ks1 ks2 : List String)
    (herr : ∀ k' ∈ ks1, oe (getGCSPath pfx k' fileName) = .error ())
    (hk : oe (getGCSPath pfx k fileName) = .ok true) :
    findFileOnGCS oe pfx fileName (ks1 ++ k :: ks2)
      = some (getGCSPath pfx k fileName) := by
  induction ks1 with
  | nil => simp [findFileOnGCS, checkFileExists, hk]
  | cons k' ks ih =>
    have h1 : oe (getGCSPath pfx k' fileName) = .error () :=
      herr k' (List.mem_cons_self _ _)
    simp only [List.cons_append, findFileOnGCS, checkFileExists, h1]
    exact ih (fun x hx => herr x (List.mem_cons_of_mem _ hx))

/-- Witness for C7: the first candidate's probe errors, the second's
succeeds, and the resolver returns the second candidate's path. -/
theorem findFileOnGCS_continues_after_errors_witness :
    findFileOnGCS
      (fun p => if p == getGCSPath "github-cache" "good" "cache.tzst"
                then .ok true else .error ())
      "github-cache" "cache.tzst" (["bad"] ++ "good" :: [])
      = some (getGCSPath "github-cache" "good" "cache.tzst") :=
  findFileOnGCS_continues_after_errors _ "github-cache" "cache.tzst" "good"
    ["bad"] []
    (fun k' hk' => by rcases List.mem_singleton.mp hk' with rfl; rfl)
    (by rfl)

/-! ### Claims about the fallback coordinators -/

/-- C4: with a remote bucket configured, a defined result of the remote
restore attempt is returned without consulting the local cache service
(any defined `restoreFromGCS` result is a non-empty object path, hence
truthy); a thrown exception or an undefined result silently falls through
to the local cache service, whose result is returned as-is. -/
theorem restoreCache_remote_priority (env : RestoreEnv) (pk : String)
    (rks paths : List String) (localRestore : Option String) :
    (∀ s, (restoreFromGCS env pk rks paths).result = some s →
        restoreCache true (.ok (some s)) localRestore = some s)
    ∧ restoreCache true (.ok none) localRestore = localRestore
    ∧ restoreCache true (.error ()) localRestore = localRestore := by
  refine ⟨?_, rfl, rfl⟩
  intro s hs
  obtain ⟨k, hk, rfl⟩ := restoreFromGCS_result_mem env pk rks paths s hs
  have ht : truthyStr (some (getGCSPath (effectivePfx env.pfxInput) k
      env.cacheFileName)) = true := by
    simp only [truthyStr, bne_iff_ne, ne_eq]
    exact getGCSPath_ne_empty _ _ _
  simp [restoreCache, ht]

/-- A restore environment in which the remote lookup succeeds on the
primary key (lookup-only mode, everything reachable). -/
def envLookupHit : RestoreEnv where
  clientOk := true
  pfxInput := ""
  cacheFileName := "cache.tzst"
  bucketExists := .ok true
  objectExists := fun _ => .ok true
  lookupOnly := true
  downloadOk := .ok ()
  statSize := .ok 5
  listTarOk := .ok ()
  sizeCalc := .ok 5
  extractOk := .ok ()
  pathExistsAfter := fun _ => .ok true

/-- Witness for C4: a concrete remote hit is returned over the local
result. -/
theorem restoreCache_remote_priority_witness :
    restoreCache true (.ok (some "github-cache/key.cache.tzst")) none
      = some "github-cache/key.cache.tzst" :=
  (restoreCache_remote_priority envLookupHit "key" [] [] none).1
    "github-cache/key.cache.tzst" rfl

/-- C8: with no bucket identifier configured, `isGCSAvailable` is false and
both coordinators return exactly the local cache service's result, for
every possible remote-attempt outcome (the remote tier is never entered:
the coordinators' results do not depend on the remote attempt at all). -/
theorem no_bucket_behaves_as_local (remoteR : Except Unit (Option String))
    (remoteS : Except Unit Int) (localRestore : Option String)
    (localSave : Int) :
    isGCSAvailable "" = false
    ∧ restoreCache (isGCSAvailable "") remoteR localRestore = localRestore
    ∧ saveCache (isGCSAvailable "") remoteS localSave = localSave := by
  refine ⟨rfl, ?_, ?_⟩ <;> simp [restoreCache, saveCache, isGCSAvailable]

/-- A save environment whose bucket-existence probe reports the bucket
missing (e.g. the configured bucket does not exist). -/
def envBucketMissing : SaveEnv where
  clientOk := true
  pfxInput := ""
  cacheFileName := "cache.tzst"
  bucketExists := .ok false
  resolvedPaths := ["test-cache"]
  createTarOk := .ok ()
  listTarOk := .ok ()
  statSize := .ok 5
  uploadOk := .ok ()
  postUploadExists := fun _ => .ok true

/-- C1: against a configured but non-existent bucket, `saveToGCS` returns
the failure id -1, and `saveCache` — whose guard `if (result)` treats the
non-zero number -1 as truthy — returns -1 directly instead of falling back
to the local tier (whose id, 42 here, is never returned).  This
contradicts the claimed fallback-on-non-positive-result behaviour. -/
theorem saveCache_no_fallback_on_failed_remote :
    (saveToGCS envBucketMissing "k").result = .ok (-1)
    ∧ saveCache (isGCSAvailable "my-bucket")
        (saveToGCS envBucketMissing "k").result 42 = -1
    ∧ (42 : Int) ≠ -1 :=
  ⟨rfl, rfl, by decide⟩

/-- A save environment with a reachable bucket but an empty resolved-path
set. -/
def envEmptyPaths : SaveEnv where
  clientOk := true
  pfxInput := ""
  cacheFileName := "cache.tzst"
  bucketExists := .ok true
  resolvedPaths := []
  createTarOk := .ok ()
  listTarOk := .ok ()
  statSize := .ok 5
  uploadOk := .ok ()
  postUploadExists := fun _ => .ok true

/-- C2 counterexample: with a configured, reachable bucket and an empty
resolved-path set, the remote tier throws the path-validation error only
after the bucket-existence network call, and the coordinator catches the
exception and returns the local tier's result (7 here) — the error IS
swallowed into a fallback attempt, and a network call was attempted. -/
theorem save_empty_paths_swallowed_into_fallback :
    (saveToGCS envEmptyPaths "k").result = .error ()
    ∧ (saveToGCS envEmptyPaths "k").bucketChecked = true
    ∧ saveCache (isGCSAvailable "my-bucket")
        (saveToGCS envEmptyPaths "k").result 7 = 7 :=
  ⟨rfl, rfl, rfl⟩

/-- C2 amended: when the remote tier is attempted (client initialised,
bucket reachable) with an empty resolved-path set, `saveToGCS` raises the
path-validation error before entering any archive step (no tar created,
nothing uploaded) though after the bucket-existence network call; the
coordinator's catch-all swallows the error and returns the local tier's
result. -/
theorem save_empty_paths_throws_and_falls_back (env : SaveEnv) (key : String)
    (localSave : Int) (h1 : env.clientOk = true)
    (h2 : env.bucketExists = .ok true) (h3 : env.resolvedPaths = []) :
    (saveToGCS env key).result = .error ()
    ∧ (saveToGCS env key).archiveStepsRun = false
    ∧ (saveToGCS env key).bucketChecked = true
    ∧ saveCache true (saveToGCS env key).result localSave = localSave := by
  simp [saveToGCS, saveCache, h1, h2, h3]

/-- Witness for C2's amended claim at a concrete environment. -/
theorem save_empty_paths_throws_and_falls_back_witness :
    (saveToGCS envEmptyPaths "k").result = .error ()
    ∧ (saveToGCS envEmptyPaths "k").archiveStepsRun = false
    ∧ (saveToGCS envEmptyPaths "k").bucketChecked = true
    ∧ saveCache true (saveToGCS envEmptyPaths "k").result 7 = 7 :=
  save_empty_paths_throws_and_falls_back envEmptyPaths "k" 7 rfl rfl rfl

/-! ### Claims about the archive-transfer tier -/

/-- C5: a zero-byte archive (the stat probe reports size 0) never yields a
success at the remote tier: the save attempt ends in the thrown
path-validation error or the failure id -1 (never the success id 1), and
a non-lookup-only restore attempt yields `undefined`. -/
theorem zero_byte_archive_never_succeeds (envS : SaveEnv) (key : String)
    (envR : RestoreEnv) (pk : String) (rks paths : List String)
    (hS : envS.statSize = .ok 0) (hR : envR.statSize = .ok 0)
    (hL : envR.lookupOnly = false) :
    ((saveToGCS envS key).result = .error ()
      ∨ (saveToGCS envS key).result = .ok (-1))
    ∧ (restoreFromGCS envR pk rks paths).result = none := by
  constructor
  · obtain ⟨co, pi, cf, be, rp, ct, lt, ss, up, pe⟩ := envS
    simp only at hS
    subst hS
    cases co
    · right; rfl
    · cases be with
      | error e => right; rfl
      | ok b =>
        cases b
        · right; rfl
        · rcases rp with _ | ⟨p, ps⟩
          · left; rfl
          · right
            cases ct with
            | error e => rfl
            | ok u =>
              cases lt with
              | error e => rfl
              | ok u2 => rfl
  · obtain ⟨co, pi, cf, be, oe, lo, dl, ss, lt, sc, ex, pe⟩ := envR
    simp only at hR hL
    subst hR
    subst hL
    cases co
    · rfl
    · cases be with
      | error e => rfl
      | ok b =>
        cases b
        · rfl
        · rcases hf : findFileOnGCS oe (effectivePfx pi) cf (pk :: rks)
            with _ | gp
          · simp [restoreFromGCS, hf]
          · cases dl with
            | error e => simp [restoreFromGCS, hf]
            | ok u => simp [restoreFromGCS, hf]

/-- Save environment producing a zero-byte archive. -/
def envSaveZero : SaveEnv where
  clientOk := true
  pfxInput := ""
  cacheFileName := "cache.tzst"
  bucketExists := .ok true
  resolvedPaths := ["p"]
  createTarOk := .ok ()
  listTarOk := .ok ()
  statSize := .ok 0
  uploadOk := .ok ()
  postUploadExists := fun _ => .ok true

/-- Restore environment downloading a zero-byte archive. -/
def envRestoreZero : RestoreEnv where
  clientOk := true
  pfxInput := ""
  cacheFileName := "cache.tzst"
  bucketExists := .ok true
  objectExists := fun _ => .ok true
  lookupOnly := false
  downloadOk := .ok ()
  statSize := .ok 0
  listTarOk := .ok ()
  sizeCalc := .ok 0
  extractOk := .ok ()
  pathExistsAfter := fun _ => .ok true

/-- Witness for C5 at concrete zero-byte environments. -/
theorem zero_byte_archive_never_succeeds_witness :
    ((saveToGCS envSaveZero "k").result = .error ()
      ∨ (saveToGCS envSaveZero "k").result = .ok (-1))
    ∧ (restoreFromGCS envRestoreZero "key" [] ["p"]).result = none :=
  zero_byte_archive_never_succeeds envSaveZero "k" envRestoreZero "key" []
    ["p"] rfl rfl rfl

/-- C6: for a save attempt that reaches the upload step (client ok, bucket
reachable, paths resolved, tar created and listed, non-zero archive size),
the attempt returns the success id 1 iff the upload completed without
error AND the post-upload existence probe of the computed object path
reports `true`; an upload that completes but whose probe reports `false`,
or whose probe throws, yields -1. -/
theorem save_success_iff_post_upload_exists (env : SaveEnv) (key : String)
    (h1 : env.clientOk = true) (h2 : env.bucketExists = .ok true)
    (h3 : env.resolvedPaths.length ≠ 0) (h4 : env.createTarOk = .ok ())
    (h5 : env.listTarOk = .ok ()) (n : Nat) (h6 : env.statSize = .ok n)
    (h7 : n ≠ 0) :
    ((saveToGCS env key).result = .ok 1 ↔
        (env.uploadOk = .ok ()
          ∧ env.postUploadExists (getGCSPath (effectivePfx env.pfxInput) key
              env.cacheFileName) = .ok true))
    ∧ (env.uploadOk = .ok () →
        env.postUploadExists (getGCSPath (effectivePfx env.pfxInput) key
          env.cacheFileName) = .ok false →
        (saveToGCS env key).result = .ok (-1))
    ∧ (env.postUploadExists (getGCSPath (effectivePfx env.pfxInput) key
          env.cacheFileName) = .error () →
        (saveToGCS env key).result = .ok (-1)) := by
  have hlen : (env.resolvedPaths.length == 0) = false := by simpa using h3
  have hn : (n == 0) = false := by simpa using h7
  rcases hu : env.uploadOk with e | u <;>
    rcases hp : env.postUploadExists (getGCSPath (effectivePfx env.pfxInput)
      key env.cacheFileName) with e2 | b
  · simp [saveToGCS, h1, h2, h4, h5, h6, hlen, hn, hu, hp]
  · cases b <;> simp [saveToGCS, h1, h2, h4, h5, h6, hlen, hn, hu, hp]
  · simp [saveToGCS, h1, h2, h4, h5, h6, hlen, hn, hu, hp]
  · cases b <;> simp [saveToGCS, h1, h2, h4, h5, h6, hlen, hn, hu, hp]

/-- Save environment in which upload and post-upload probe both succeed. -/
def envUploadOk : SaveEnv where
  clientOk := true
  pfxInput := ""
  cacheFileName := "cache.tzst"
  bucketExists := .ok true
  resolvedPaths := ["p"]
  createTarOk := .ok ()
  listTarOk := .ok ()
  statSize := .ok 5
  uploadOk := .ok ()
  postUploadExists := fun _ => .ok true

/-- Witness for C6: with upload and probe succeeding, the save attempt
returns the success id 1. -/
theorem save_success_iff_post_upload_exists_witness :
    (saveToGCS envUploadOk "k").result = .ok 1 :=
  ((save_success_iff_post_upload_exists envUploadOk "k" rfl rfl (by decide)
      rfl rfl 5 rfl (by decide)).1).mpr ⟨rfl, rfl⟩

/-! ### Temporary-archive cleanup -/

/-- In `saveToGCS`, the `finally` that unlinks the archive runs exactly
when the archive-creating `try` block was entered. -/
theorem saveToGCS_unlink_eq (env : SaveEnv) (key : String) :
    (saveToGCS env key).unlinkCalled = (saveToGCS env key).archiveStepsRun := by
  obtain ⟨co, pi, cf, be, rp, ct, lt, ss, up, pe⟩ := env
  cases co
  · rfl
  · cases be with
    | error e => rfl
    | ok b =>
      cases b
      · rfl
      · rcases rp with _ | ⟨p, ps⟩
        · rfl
        · rfl

/-- In `restoreFromGCS`, the `finally` that unlinks the archive runs
exactly when the downloading `try` block was entered. -/
theorem restoreFromGCS_unlink_eq (env : RestoreEnv) (pk : String)
    (rks paths : List String) :
    (restoreFromGCS env pk rks paths).unlinkCalled
      = (restoreFromGCS env pk rks paths).downloadAttempted := by
  obtain ⟨co, pi, cf, be, oe, lo, dl, ss, lt, sc, ex, pe⟩ := env
  cases co
  · rfl
  · cases be with
    | error e => rfl
    | ok b =>
      cases b
      · rfl
      · rcases hf : findFileOnGCS oe (effectivePfx pi) cf (pk :: rks)
          with _ | gp
        · simp [restoreFromGCS, hf]
        · cases lo <;> simp [restoreFromGCS, hf]

/-- C9: on every exit path of a remote save or restore attempt in which
the temporary archive step was entered (so the archive file may have been
created) — success, failure sentinel, or caught-and-rethrown error — the
`finally` block's `unlinkFile` is reached before the attempt returns. -/
theorem temp_archive_always_unlinked (envS : SaveEnv) (key : String)
    (envR : RestoreEnv) (pk : String) (rks paths : List String) :
    ((saveToGCS envS key).archiveStepsRun = true →
        (saveToGCS envS key).unlinkCalled = true)
    ∧ ((restoreFromGCS envR pk rks paths).downloadAttempted = true →
        (restoreFromGCS envR pk rks paths).unlinkCalled = true) :=
  ⟨fun h => (saveToGCS_unlink_eq envS key).trans h,
   fun h => (restoreFromGCS_unlink_eq envR pk rks paths).trans h⟩

/-- Save environment for the cleanup witness (archive step entered). -/
def envSaveFull : SaveEnv where
  clientOk := true
  pfxInput := ""
  cacheFileName := "cache.tzst"
  bucketExists := .ok true
  resolvedPaths := ["p"]
  createTarOk := .ok ()
  listTarOk := .ok ()
  statSize := .ok 5
  uploadOk := .ok ()
  postUploadExists := fun _ => .ok true

/-- Restore environment for the cleanup witness (download attempted). -/
def envRestoreFull : RestoreEnv where
  clientOk := true
  pfxInput := ""
  cacheFileName := "cache.tzst"
  bucketExists := .ok true
  objectExists := fun _ => .ok true
  lookupOnly := false
  downloadOk := .ok ()
  statSize := .ok 5
  listTarOk := .ok ()
  sizeCalc := .ok 5
  extractOk := .ok ()
  pathExistsAfter := fun _ => .ok true

/-- Witness for C9 at concrete environments that reach the archive step. -/
theorem temp_archive_always_unlinked_witness :
    (saveToGCS envSaveFull "k").unlinkCalled = true
    ∧ (restoreFromGCS envRestoreFull "key" [] ["p"]).unlinkCalled = true :=
  ⟨(temp_archive_always_unlinked envSaveFull "k" envRestoreFull "key" []
      ["p"]).1 rfl,
   (temp_archive_always_unlinked envSaveFull "k" envRestoreFull "key" []
      ["p"]).2 rfl⟩

/-! ### The value returned by a remote restore match -/

/-- Restore environment whose object store answers "exists" only for the
object path `github-cache/a.cache.tzst` (the path derived from restore key
"a"), in lookup-only mode. -/
def envAdversarial : RestoreEnv where
  clientOk := true
  pfxInput := ""
  cacheFileName := "cache.tzst"
  bucketExists := .ok true
  objectExists := fun p => .ok (p == "github-cache/a.cache.tzst")
  lookupOnly := true
  downloadOk := .ok ()
  statSize := .ok 5
  listTarOk := .ok ()
  sizeCalc := .ok 5
  extractOk := .ok ()
  pathExistsAfter := fun _ => .ok true

/-- C10 counterexample: with primary key "github-cache/a.cache.tzst" and
restore key "a", the remote restore matches on "a" and returns the object
path `github-cache/a.cache.tzst` — which IS equal to the primary key, and
the exact-key-match check against the primary key succeeds.  So the
returned value is not "never equal to the primaryKey argument". -/
theorem restore_result_can_equal_primary_key :
    (restoreFromGCS envAdversarial "github-cache/a.cache.tzst" ["a"]
        ["p"]).result = some "github-cache/a.cache.tzst"
    ∧ isExactKeyMatch "github-cache/a.cache.tzst"
        (some "github-cache/a.cache.tzst") = true := by
  exact ⟨rfl, by decide⟩

/-- C10 amended: every defined remote-restore result is the full object
path `pfx/key.fileName` of one of the candidate keys, never the matched
key itself (the path is strictly longer); in particular, when the match is
on the primary key, the returned value differs from the primary key and
the exact-key-match comparison against the primary key fails.  (For
adversarially chosen restore keys the returned path can still coincide
with the primary key, as the counterexample shows.) -/
theorem restore_returns_object_path (env : RestoreEnv) (pk : String)
    (rks paths : List String) (s : String)
    (h : (restoreFromGCS env pk rks paths).result = some s) :
    ∃ k, k ∈ pk :: rks
      ∧ s = getGCSPath (effectivePfx env.pfxInput) k env.cacheFileName
      ∧ s ≠ k
      ∧ (k = pk → s ≠ pk ∧ isExactKeyMatch pk (some s) = false) := by
  obtain ⟨k, hk, rfl⟩ := restoreFromGCS_result_mem env pk rks paths s h
  refine ⟨k, hk, rfl, getGCSPath_ne_key _ _ _, ?_⟩
  rintro rfl
  exact ⟨getGCSPath_ne_key _ _ _, isExactKeyMatch_getGCSPath_false _ _ _⟩

/-- Restore environment whose store contains every probed object, so the
match lands on the primary key. -/
def envPrimaryHit : RestoreEnv where
  clientOk := true
  pfxInput := ""
  cacheFileName := "cache.tzst"
  bucketExists := .ok true
  objectExists := fun _ => .ok true
  lookupOnly := true
  downloadOk := .ok ()
  statSize := .ok 5
  listTarOk := .ok ()
  sizeCalc := .ok 5
  extractOk := .ok ()
  pathExistsAfter := fun _ => .ok true

/-- Witness for C10's amended claim: a match on primary key "key" returns
the object path, which differs from "key" and fails exact-key-match. -/
theorem restore_returns_object_path_witness :
    ∃ k, k ∈ "key" :: ([] : List String)
      ∧ "github-cache/key.cache.tzst"
          = getGCSPath (effectivePfx envPrimaryHit.pfxInput) k
              envPrimaryHit.cacheFileName
      ∧ ("github-cache/key.cache.tzst" : String) ≠ k
      ∧ (k = "key" → ("github-cache/key.cache.tzst" : String) ≠ "key"
          ∧ isExactKeyMatch "key" (some "github-cache/key.cache.tzst")
              = false) :=
  restore_returns_object_path envPrimaryHit "key" [] []
    "github-cache/key.cache.tzst" rfl

end GcsCache
